import Mathlib

/-!
Verification development for the fetsig client-side fetch-orchestration core.

The definitions below are a shallow embedding of the Rust sources:

* `src/interface/statuscode.rs` — `StatusCode`
* `src/browser/transferstate.rs` — `TransferState` and its transitions
* `src/interface/mediatype.rs` — `MediaType` and its string mapping
* `src/interface/messages.rs` — `Messages` and its mutating operations
* `src/browser/common.rs` — decode pipeline and `PendingFetch`
* `src/browser/request.rs` — `Request` builder
* `src/browser/entity.rs` / `src/browser/collection.rs` — store fetch flows

Stateful Rust code is embedded as explicit state passing; the side effects
relevant to the temporal claims (network calls, callback invocations,
transfer-state writes) are recorded in explicit event traces.
-/

namespace Fetsig

/-- `StatusCode` from `src/interface/statuscode.rs`. -/
inductive StatusCode where
  | Undefined
  | FetchFailed
  | FetchTimeout
  | DecodeFailed
  | Ok
  | Created
  | NoContent
  | NotModified
  | BadRequest
  | Unauthorized
  | Forbidden
  | NotFound
  | MethodNotAllowed
  | Conflict
  | PayloadTooBig
  | UnsupportedMediaType
  | RateLimited
  | InternalServerError
  | NotImplemented
  deriving DecidableEq, Repr

/-- `StatusCode::is_success`. -/
def StatusCode.is_success : StatusCode → Bool
  | .Ok | .Created | .NoContent | .NotModified => true
  | _ => false

/-- `StatusCode::is_failure`. -/
def StatusCode.is_failure (s : StatusCode) : Bool :=
  !s.is_success

/-- `impl From<u16> for StatusCode`. -/
def StatusCode.from_u16 (code : Nat) : StatusCode :=
  match code with
  | 200 => .Ok
  | 201 => .Created
  | 204 => .NoContent
  | 304 => .NotModified
  | 400 => .BadRequest
  | 401 => .Unauthorized
  | 403 => .Forbidden
  | 404 => .NotFound
  | 405 => .MethodNotAllowed
  | 409 => .Conflict
  | 413 => .PayloadTooBig
  | 415 => .UnsupportedMediaType
  | 429 => .RateLimited
  | 500 => .InternalServerError
  | 501 => .NotImplemented
  | 901 => .FetchFailed
  | 902 => .FetchTimeout
  | 903 => .DecodeFailed
  | _ => .Undefined

/-- `TransferState` from `src/browser/transferstate.rs`. -/
inductive TransferState where
  | Empty
  | PendingLoad
  | PendingStore
  | Loaded (status : StatusCode)
  | Stored (status : StatusCode)
  deriving DecidableEq, Repr

/-- `TransferState::pending`. -/
def TransferState.pending : TransferState → Bool
  | .PendingLoad | .PendingStore => true
  | _ => false

/-- `TransferState::loaded`: `Loaded(status)` with `status.is_success()`. -/
def TransferState.loaded : TransferState → Bool
  | .Loaded status => status.is_success
  | _ => false

/-- `TransferState::stored`: `Stored(status)` with `status.is_success()`. -/
def TransferState.stored : TransferState → Bool
  | .Stored status => status.is_success
  | _ => false

/-- `TransferState::loaded_status`. -/
def TransferState.loaded_status : TransferState → Option StatusCode
  | .Loaded status => some status
  | _ => none

/-- `TransferState::stored_status`. -/
def TransferState.stored_status : TransferState → Option StatusCode
  | .Stored status => some status
  | _ => none

/-- `TransferState::reset_error`. -/
def TransferState.reset_error : TransferState → TransferState
  | .Loaded _ => .Loaded .Ok
  | .Stored _ => .Stored .Ok
  | s => s

/-- `TransferState::start_load` (unconditional assignment). -/
def TransferState.start_load (_ : TransferState) : TransferState :=
  .PendingLoad

/-- `TransferState::start_store` (unconditional assignment). -/
def TransferState.start_store (_ : TransferState) : TransferState :=
  .PendingStore

/-- `TransferState::stop`. -/
def TransferState.stop (s : TransferState) (status : StatusCode) : TransferState :=
  match s with
  | .PendingLoad | .Loaded _ => .Loaded status
  | .PendingStore | .Stored _ => .Stored status
  | _ => .Loaded .FetchFailed

/-! ### The TransferState call protocol (claim C1)

A call sequence is a list of `start_load` / `start_store` / `stop(status)`
invocations; the documented protocol allows a start only from `Empty` or a
terminal `Loaded`/`Stored` state and a stop only from a pending state. -/

/-- One mutating call on a `TransferState`. -/
inductive TSOp where
  | start_load
  | start_store
  | stop (status : StatusCode)
  deriving DecidableEq, Repr

/-- Effect of one call, as implemented in `transferstate.rs`. -/
def TSOp.apply (s : TransferState) : TSOp → TransferState
  | .start_load => s.start_load
  | .start_store => s.start_store
  | .stop status => s.stop status

/-- The documented protocol: start only from `Empty` or a terminal
`Loaded`/`Stored` state, stop only from a pending state. -/
def TSOp.allowed (s : TransferState) : TSOp → Bool
  | .start_load | .start_store =>
    match s with
    | .Empty | .Loaded _ | .Stored _ => true
    | _ => false
  | .stop _ => s.pending

/-- Whether a call sequence obeys the protocol starting from `s`. -/
def validFrom (s : TransferState) : List TSOp → Bool
  | [] => true
  | op :: rest => op.allowed s && validFrom (op.apply s) rest

/-- Run a call sequence from `s`. -/
def runFrom (s : TransferState) (ops : List TSOp) : TransferState :=
  ops.foldl TSOp.apply s

/-- Run a call sequence from the initial `Empty` state. -/
def runOps (ops : List TSOp) : TransferState :=
  runFrom .Empty ops

/-- Tracking fold for the spec's notion of "last completed verb": the first
component is the verb currently pending (`true` = load), the second the verb
and status of the most recently completed `stop`. -/
def lastCompletedStep :
    Option Bool × Option (Bool × StatusCode) → TSOp →
      Option Bool × Option (Bool × StatusCode)
  | (_, c), .start_load => (some true, c)
  | (_, c), .start_store => (some false, c)
  | (p, c), .stop status =>
    match p with
    | some isLoad => (none, some (isLoad, status))
    | none => (none, c)

/-- The last completed verb of a call sequence together with the status
passed to the `stop` that completed it. -/
def lastCompleted (ops : List TSOp) : Option (Bool × StatusCode) :=
  (ops.foldl lastCompletedStep (none, none)).2

/-- The value claim C1 asserts for `loaded()`: the last completed verb was a
load and the status passed to its `stop` is a success code. -/
def lastCompletedLoadSuccess (ops : List TSOp) : Bool :=
  match lastCompleted ops with
  | some (true, status) => status.is_success
  | _ => false

/-! ### Messages (`src/interface/messages.rs`)

`Messages` couples a `BTreeMap` from category key to an ordered vector of
`Message` with a cached aggregate `error` flag.  The map is embedded as an
association list with unique keys (insertion replaces an existing binding,
as `BTreeMap::insert` does); the reactive cells are embedded as plain
fields, mutation as explicit state passing. -/

/-- `MessageType` from `src/interface/messages.rs`. -/
inductive MessageType where
  | Error
  | Information
  | Section
  deriving DecidableEq, Repr

/-- `Message` from `src/interface/messages.rs`. -/
structure Message where
  message_type : MessageType
  text : String
  parameters : List String
  deriving DecidableEq, Repr

/-- `Message::error`. -/
def Message.error (m : Message) : Bool :=
  m.message_type == MessageType.Error

/-- `BTreeMap::insert`-like binding replacement on an association list. -/
def mapInsert (k : String) (v : List Message) :
    List (String × List Message) → List (String × List Message)
  | [] => [(k, v)]
  | (k', v') :: rest =>
    if k' = k then (k, v) :: rest else (k', v') :: mapInsert k v rest

/-- `BTreeMap::remove`-like binding removal on an association list. -/
def mapRemove (k : String) :
    List (String × List Message) → List (String × List Message)
  | [] => []
  | (k', v') :: rest =>
    if k' = k then rest else (k', v') :: mapRemove k rest

/-- Push a message onto the vector at `k`, inserting a fresh singleton
vector when the key is absent (the body of `Messages::add_with_pars`). -/
def mapPush (k : String) (msg : Message) :
    List (String × List Message) → List (String × List Message)
  | [] => [(k, [msg])]
  | (k', v') :: rest =>
    if k' = k then (k', v' ++ [msg]) :: rest
    else (k', v') :: mapPush k msg rest

/-- `Messages` (cached aggregate error flag plus the keyed multimap). -/
structure Messages where
  error : Bool
  messages : List (String × List Message)
  deriving DecidableEq, Repr

/-- `Messages::new`. -/
def Messages.new : Messages :=
  { error := false, messages := [] }

/-- The scan inside `Messages::evaluate_error`: some message in some
category has `Error` kind. -/
def existsError (m : List (String × List Message)) : Bool :=
  m.any fun kv => kv.2.any Message.error

/-- `Messages::evaluate_error` (recompute the cached flag). -/
def Messages.evaluate_error (m : Messages) : Messages :=
  { m with error := existsError m.messages }

/-- `Messages::set_with_pars`: insert a singleton vector at `key`, then set
the cached flag from the new message's kind alone. -/
def Messages.set_with_pars (m : Messages) (key : String) (mt : MessageType)
    (text : String) (pars : List String) : Messages :=
  { error := mt == MessageType.Error,
    messages := mapInsert key [⟨mt, text, pars⟩] m.messages }

/-- `Messages::add_with_pars`: push onto the vector at `key` (inserting it
when absent), or-ing the new message's kind into the cached flag. -/
def Messages.add_with_pars (m : Messages) (key : String) (mt : MessageType)
    (text : String) (pars : List String) : Messages :=
  { error := m.error || (mt == MessageType.Error),
    messages := mapPush key ⟨mt, text, pars⟩ m.messages }

/-- `Messages::clear`: remove the key, then `evaluate_error`. -/
def Messages.clear (m : Messages) (key : String) : Messages :=
  Messages.evaluate_error { m with messages := mapRemove key m.messages }

/-- `Messages::replace`: replace the map wholesale, then `evaluate_error`
(the replacement's own cached flag is ignored). -/
def Messages.replace (m w : Messages) : Messages :=
  Messages.evaluate_error { m with messages := w.messages }

/-- `Messages::clear_all`: clear the map and force the flag to `false`. -/
def Messages.clear_all (_ : Messages) : Messages :=
  { error := false, messages := [] }

/-- `Messages::from_service_error` (via `Messages::with`, which calls
`add_with_pars` on a fresh `Messages`). -/
def Messages.from_service_error (text : String) : Messages :=
  Messages.new.add_with_pars "service" .Error text []

/-- One mutating operation on a `Messages` value, for claim C2. -/
inductive MsgOp where
  | add (key : String) (mt : MessageType) (text : String) (pars : List String)
  | set (key : String) (mt : MessageType) (text : String) (pars : List String)
  | clear (key : String)
  | replace (w : Messages)
  | clear_all
  deriving DecidableEq, Repr

/-- Effect of one `MsgOp`, as implemented in `messages.rs` (`set` and `add`
delegate to `set_with_pars` / `add_with_pars`). -/
def MsgOp.apply (m : Messages) : MsgOp → Messages
  | .add key mt text pars => m.add_with_pars key mt text pars
  | .set key mt text pars => m.set_with_pars key mt text pars
  | .clear key => m.clear key
  | .replace w => m.replace w
  | .clear_all => m.clear_all

/-- Whether the operation is a `set` (the operation that invalidates the
cached aggregate flag). -/
def MsgOp.isSet : MsgOp → Bool
  | .set _ _ _ _ => true
  | _ => false

/-- Run a sequence of mutations on a fresh `Messages`. -/
def applyMsgOps (ops : List MsgOp) : Messages :=
  ops.foldl MsgOp.apply Messages.new

/-! ### MediaType (`src/interface/mediatype.rs`) -/

/-- `MediaType` from `src/interface/mediatype.rs`; `ByteStream` carries the
`#[default]` attribute. -/
inductive MediaType where
  | ByteStream
  | Cbor
  | Css
  | Form
  | FormMultipart
  | Html
  | Ico
  | Javascript
  | Jpeg
  | Json
  | Pdf
  | Plain
  | Png
  | Postcard
  | Pwg
  | Sse
  | Svg
  | Urf
  | Wasm
  | Xml
  | Xlsx
  | Zip
  | Zip7
  deriving DecidableEq, Repr

/-- `MediaType::default()` (the `#[default]` variant). -/
def MediaType.default : MediaType :=
  .ByteStream

/-- `impl From<&str> for MediaType`. -/
def MediaType.from_str (mime : String) : MediaType :=
  match mime with
  | "application/octet-stream" => .ByteStream
  | "application/cbor" => .Cbor
  | "text/css" => .Css
  | "application/x-www-form-urlencoded" => .Form
  | "multipart/form-data" => .FormMultipart
  | "text/html" => .Html
  | "image/x-icon" => .Ico
  | "application/javascript" => .Javascript
  | "image/jpeg" => .Jpeg
  | "application/json" => .Json
  | "application/pdf" => .Pdf
  | "text/plain" => .Plain
  | "image/png" => .Png
  | "application/x-postcard" => .Postcard
  | "image/pwg-raster" => .Pwg
  | "text/event-stream" => .Sse
  | "image/svg+xml" => .Svg
  | "image/urf" => .Urf
  | "application/wasm" => .Wasm
  | "application/xml" => .Xml
  | "application/vnd.openxmlformats-officedocument.spreadsheetml.sheet" => .Xlsx
  | "application/zip" => .Zip
  | "application/x-zip-compressed" => .Zip
  | "application/x-7z-compressed" => .Zip7
  | _ => MediaType.default

/-- The mime strings recognized by `impl From<&str> for MediaType`. -/
def recognizedContentTypes : List String :=
  ["application/octet-stream", "application/cbor", "text/css",
   "application/x-www-form-urlencoded", "multipart/form-data", "text/html",
   "image/x-icon", "application/javascript", "image/jpeg",
   "application/json", "application/pdf", "text/plain", "image/png",
   "application/x-postcard", "image/pwg-raster", "text/event-stream",
   "image/svg+xml", "image/urf", "application/wasm", "application/xml",
   "application/vnd.openxmlformats-officedocument.spreadsheetml.sheet",
   "application/zip", "application/x-zip-compressed",
   "application/x-7z-compressed"]

/-- The `Content-Type` header to `MediaType` mapping inside
`decode_response` (`src/browser/common.rs` lines 198–201): a present value
goes through `MediaType::from`, a missing header maps to `Plain`. -/
def contentTypeToMediaType : Option String → MediaType
  | some content_type => MediaType.from_str content_type
  | none => .Plain

/-- The media types the stores can serialize and the decode pipeline can
deserialize, with both the `json` and `postcard` features compiled in. -/
def MediaType.structured : MediaType → Bool
  | .Json | .Postcard => true
  | _ => false

/-! ### Request builder (`src/browser/request.rs`)

Durations are embedded as whole seconds (`Nat`); every duration in the
sources is built with `Duration::from_secs`.  The JS-effectful parts of
`Request::start` (header object construction, `AbortController` creation)
are represented by an outcome oracle: `none` means construction succeeded,
`some e` the descriptive error. -/

/-- `Method` from `src/browser/request.rs`. -/
inductive Method where
  | Head
  | Get
  | Post
  | Put
  | Delete
  | Options
  deriving DecidableEq, Repr

/-- `Method::is_load`. -/
def Method.is_load : Method → Bool
  | .Head | .Get | .Options => true
  | _ => false

/-- `Body` from `src/browser/request.rs`: raw bytes or a file handle. -/
inductive RequestBody where
  | bytes (data : List Nat)
  | file (name : String)
  deriving DecidableEq, Repr

/-- `Request` from `src/browser/request.rs`. -/
structure Request where
  logging : Bool
  method : Method
  is_load : Bool
  url : String
  headers : Option (List (String × String))
  media_type : Option MediaType
  body : Option RequestBody
  wants_response : Bool
  timeout : Option Nat
  deriving DecidableEq, Repr

/-- `Request::new`: GET, load intent, logging on, 5-second timeout. -/
def Request.new (url : String) : Request :=
  { logging := true, method := .Get, is_load := true, url := url,
    headers := none, media_type := none, body := none,
    wants_response := false, timeout := some 5 }

/-- `Request::with_header`. -/
def Request.with_header (r : Request) (name value : String) : Request :=
  { r with headers := some ((r.headers.getD []) ++ [(name, value)]) }

/-- `Request::with_body`. -/
def Request.with_body (r : Request) (body : List Nat) : Request :=
  { r with body := some (.bytes body) }

/-- `Request::with_is_load`. -/
def Request.with_is_load (r : Request) (is_load : Bool) : Request :=
  { r with is_load := is_load }

/-- `Request::with_timeout`. -/
def Request.with_timeout (r : Request) (timeout : Option Nat) : Request :=
  { r with timeout := timeout }

/-- `Request::with_media_type` (also records the `Content-Type` header). -/
def Request.with_media_type (r : Request) (media_type : MediaType) : Request :=
  Request.with_header { r with media_type := some media_type }
    "Content-Type" "media-type"

/-- `PendingFetch` from `src/browser/common.rs` (URL, declared timeout; the
abort handle and the underlying JS future stay opaque). -/
structure PendingFetch where
  url : String
  timeout : Option Nat
  deriving DecidableEq, Repr

/-- `Request::start`: construction failure (oracle `startError`) yields the
descriptive error and never reaches the network; success hands the URL and
the declared timeout to the returned `PendingFetch`. -/
def Request.start (r : Request) (startError : Option String) :
    Except String PendingFetch :=
  match startError with
  | some e => .error e
  | none => .ok { url := r.url, timeout := r.timeout }

/-- The delay bounding the network race in `PendingFetch::wait_completion`:
`self.timeout.unwrap_or_else(|| Duration::from_secs(900))`. -/
def PendingFetch.race_timeout_secs (pf : PendingFetch) : Nat :=
  pf.timeout.getD 900

/-- Reading a JS header or body can fail with a JS error; `Except` embeds
the `Result` of the corresponding `web_sys` call. -/
inductive JsContent where
  | str (s : String)
  | strOpaque
  | buffer (data : List Nat)
  deriving DecidableEq, Repr

/-- The two failure points while obtaining the response body bytes in
`decode_response`: `Response::array_buffer()` (hint "Decode 1") and awaiting
the resulting future (hint "Decode 2"). -/
inductive BodyErr where
  | arrayBuffer
  | future
  deriving DecidableEq, Repr

instance {ε α : Type} [DecidableEq ε] [DecidableEq α] :
    DecidableEq (Except ε α) := fun a b =>
  match a, b with
  | .ok x, .ok y =>
    if h : x = y then isTrue (by rw [h]) else isFalse (by simp [h])
  | .error x, .error y =>
    if h : x = y then isTrue (by rw [h]) else isFalse (by simp [h])
  | .ok _, .error _ => isFalse (by simp)
  | .error _, .ok _ => isFalse (by simp)

/-- The raw `web_sys::Response` surface consumed by the pipeline. -/
structure JsResponse where
  ok : Bool
  isTypeError : Bool
  status : Nat
  content_type : Except String (Option String)
  signature : Except String (Option String)
  body : Except BodyErr JsContent
  deriving DecidableEq, Repr

/-- `DecodedResponse` from `src/browser/common.rs`. -/
structure DecodedResponse (R : Type) where
  status : StatusCode
  hint : Option String
  response : Option R
  deriving DecidableEq, Repr

/-- Outcome of racing the network future against the timeout, indexed by
the delay actually used for the race. -/
inductive RaceOutcome where
  | resolved (response : JsResponse)
  | rejected (err : String)
  | timedOut
  deriving DecidableEq, Repr

/-- `PendingFetch::wait_completion`: races the network future against
`race_timeout_secs`. -/
def PendingFetch.wait_completion (pf : PendingFetch)
    (race : Nat → RaceOutcome) : DecodedResponse JsResponse :=
  match race pf.race_timeout_secs with
  | .resolved response =>
    if !response.ok && response.isTypeError then
      { status := .FetchFailed, hint := some "Fetch network error",
        response := none }
    else
      { status := StatusCode.from_u16 response.status, hint := none,
        response := some response }
  | .rejected err =>
    { status := .FetchFailed,
      hint := some ("Fetch start failed (" ++ err ++ ")"), response := none }
  | .timedOut =>
    { status := .FetchTimeout, hint := some pf.url, response := none }

/-! ### Decode pipeline (`src/browser/common.rs`)

The pluggable capabilities (MAC verification, base64 decode, the JSON and
postcard codecs) are embedded as function-valued parameters collected in
`Caps`; the concrete serde/postcard/base64 implementations live outside the
verified core.  `decode_content` additionally records the order in which it
invokes the verification and deserialization capabilities. -/

/-- The pluggable capabilities used by the decode pipeline for a response
type `R`. -/
structure Caps (R : Type) where
  verify : List Nat → Option String → Except String Bool
  b64decode : List Nat → Except String (List Nat)
  deserJson : List Nat → Except String R
  deserPostcard : List Nat → Except String R

/-- Capability invocations recorded by `decode_content`. -/
inductive DecodeEv where
  | verifyInvoked (data : List Nat)
  | deserInvoked (data : List Nat)
  deriving DecidableEq, Repr

/-- UTF-8 bytes of a string (string content is read as UTF-8 bytes). -/
def strBytes (s : String) : List Nat :=
  s.toUTF8.toList.map UInt8.toNat

/-- The byte-extraction step of `decode_content`: string content is read as
UTF-8 bytes; an explicitly empty string, a string that cannot be read back,
or a zero-length buffer short-circuits to "no body" (`none`). -/
def contentBytes : JsContent → Option (List Nat)
  | .str s => if s = "" then none else some (strBytes s)
  | .strOpaque => none
  | .buffer d => if d.length = 0 then none else some d

/-- `decode_content` from `src/browser/common.rs`, together with the trace
of capability invocations. -/
def decode_content {R : Type} (caps : Caps R) (media_type : MediaType)
    (decode_base64 : Bool) (content : JsContent) (signature : Option String) :
    Except (StatusCode × String) (Option R) × List DecodeEv :=
  match media_type with
  | .Json | .Postcard =>
    match contentBytes content with
    | none => (.ok none, [])
    | some data0 =>
      match (if decode_base64 then caps.b64decode data0 else .ok data0) with
      | .error e => (.error (.DecodeFailed, e), [])
      | .ok data =>
        match caps.verify data signature with
        | .ok false =>
          (.error (.DecodeFailed, "Response signature is invalid."),
           [.verifyInvoked data])
        | .error e =>
          (.error (.DecodeFailed,
             "Response signature verification failed: {}." ++ e),
           [.verifyInvoked data])
        | .ok true =>
          match media_type with
          | .Json =>
            match caps.deserJson data with
            | .ok r =>
              (.ok (some r), [.verifyInvoked data, .deserInvoked data])
            | .error e =>
              (.error (.DecodeFailed, "Deserialization failed: {}" ++ e),
               [.verifyInvoked data, .deserInvoked data])
          | .Postcard =>
            match caps.deserPostcard data with
            | .ok r =>
              (.ok (some r), [.verifyInvoked data, .deserInvoked data])
            | .error e =>
              (.error (.DecodeFailed, "Deserialization failed: {}" ++ e),
               [.verifyInvoked data, .deserInvoked data])
          | _ =>
            (.error (.UnsupportedMediaType,
               "Decode/deserialize error, unexpected data flow for unsupported media type."),
             [.verifyInvoked data])
  | _ => (.error (.UnsupportedMediaType, ""), [])

/-- `decode_response` from `src/browser/common.rs` (the `Ok`/`Err` results
of the Rust function are merged, exactly as its only caller does). -/
def decode_response {R : Type} (caps : Caps R) (status : StatusCode)
    (response : JsResponse) : DecodedResponse R × List DecodeEv :=
  match response.content_type with
  | .error e =>
    ({ status := .FetchFailed,
       hint := some ("Cannot decode Content-Type header: " ++ e ++ "."),
       response := none }, [])
  | .ok content_type =>
    let media_type := contentTypeToMediaType content_type
    match response.signature with
    | .error e =>
      ({ status := .FetchFailed,
         hint := some ("Cannot decode Content-Signature header: " ++ e ++ "."),
         response := none }, [])
    | .ok signature =>
      match response.body with
      | .error .arrayBuffer =>
        ({ status := .DecodeFailed, hint := some "Decode 1",
           response := none }, [])
      | .error .future =>
        ({ status := .DecodeFailed, hint := some "Decode 2",
           response := none }, [])
      | .ok content =>
        match decode_content caps media_type false content signature with
        | (.ok none, tr) =>
          ({ status := status, hint := none, response := none }, tr)
        | (.ok (some r), tr) =>
          ({ status := status, hint := none, response := some r }, tr)
        | (.error (st, hint), tr) =>
          ({ status := st, hint := some hint, response := none }, tr)

/-- The fixed allow-list of statuses eligible for body decoding in
`execute_fetch`. -/
def eligibleForDecode : StatusCode → Bool
  | .Ok | .Created | .NoContent | .BadRequest | .Forbidden
  | .InternalServerError | .NotFound | .PayloadTooBig | .RateLimited
  | .Unauthorized => true
  | _ => false

/-- `execute_fetch` from `src/browser/common.rs`, applied to the completed
`wait_completion` result (`cast_failure` keeps status and hint, drops the
raw response). -/
def execute_fetch {R : Type} (caps : Caps R)
    (fetched : DecodedResponse JsResponse) :
    DecodedResponse R × List DecodeEv :=
  match fetched.response with
  | none =>
    ({ status := fetched.status, hint := fetched.hint, response := none }, [])
  | some response =>
    if eligibleForDecode fetched.status then
      decode_response caps fetched.status response
    else
      ({ status := fetched.status, hint := fetched.hint, response := none },
       [])

/-! ### EntityStore and CollectionStore flows
(`src/browser/entity.rs`, `src/browser/collection.rs`)

The reactive `Mutable` cells owned by a store are embedded as a state
record; the externally observable side effects of one `load`/`store` call —
the network call, the one-shot result callback (together with the
`TransferState` value it would observe on a synchronous re-read), and each
`TransferState` write — are recorded in an event trace in program order.
The asynchronous completion runs on the same single thread, so one call's
whole lifecycle is a contiguous trace. -/

/-- `Messages::from_inner` (fresh `false` flag over the given map). -/
def Messages.from_inner (inner : List (String × List Message)) : Messages :=
  { error := false, messages := inner }

/-- The wire envelope `EntityResponse` from `src/interface/transport.rs`. -/
structure EntityResponse (E : Type) where
  messages : List (String × List Message)
  entity : Option E
  deriving DecidableEq, Repr

/-- `Paging` from `src/interface/transport.rs`. -/
structure Paging where
  limit : Nat
  prev : Option String
  next : Option String
  deriving DecidableEq, Repr

/-- `Paging::default()`. -/
def Paging.default : Paging :=
  { limit := 25, prev := none, next := none }

/-- The wire envelope `CollectionResponse` from
`src/interface/transport.rs`. -/
structure CollectionResponse (E : Type) where
  messages : List (String × List Message)
  paging : Paging
  collection : Option (List E)
  deriving DecidableEq, Repr

/-- The observable state of an `EntityStore` (transfer state, messages,
entity cell); for `execute_with_response` the written cell is the
caller-supplied one, represented by the same field. -/
structure EntityState (E : Type) where
  ts : TransferState
  msgs : Messages
  entity : Option E
  deriving DecidableEq, Repr

/-- The observable state of a `CollectionStore`. -/
structure CollectionState (E : Type) where
  ts : TransferState
  msgs : Messages
  paging : Paging
  collection : List E
  deriving DecidableEq, Repr

/-- Observable side effects of one store call, in program order. -/
inductive Ev where
  | netFetch
  | callback (status : StatusCode) (tsSeen : TransferState)
  | tsWrite (ts : TransferState)
  deriving DecidableEq, Repr

/-- Whether the event is a result-callback invocation. -/
def Ev.isCallback : Ev → Bool
  | .callback _ _ => true
  | _ => false

/-- Whether the event is a network call. -/
def Ev.isNetFetch : Ev → Bool
  | .netFetch => true
  | _ => false

/-- Number of result-callback invocations in a trace. -/
def callbackCount (tr : List Ev) : Nat :=
  (tr.filter Ev.isCallback).length

/-- Number of network calls in a trace. -/
def netFetchCount (tr : List Ev) : Nat :=
  (tr.filter Ev.isNetFetch).length

/-- The pending state written by the `fetch` helpers before spawning the
completion: `start_load()` when `request.is_load()`, else `start_store()`. -/
def pendingOf (is_load : Bool) : TransferState :=
  if is_load then .PendingLoad else .PendingStore

/-- The media types accepted by the `store` paths (`Some(Json)` or
`Some(Postcard)`, with both codec features compiled in). -/
def mediaSupportedOpt : Option MediaType → Bool
  | some .Json | some .Postcard => true
  | _ => false

/-- `execute_entity_fetch` from `src/browser/entity.rs`: classification of
the decoded result and application of messages/entity updates.
`hasStorage` is whether a `storage_entity` cell was supplied. -/
def execute_entity_fetch {E : Type}
    (result : DecodedResponse (EntityResponse E)) (hasStorage : Bool)
    (msgs : Messages) (cell : Option E) : StatusCode × Messages × Option E :=
  match result.status, result.response with
  | .FetchTimeout, _ => (.FetchTimeout, msgs, cell)
  | .FetchFailed, _ => (.FetchFailed, msgs, cell)
  | .DecodeFailed, _ => (.DecodeFailed, msgs, cell)
  | status, none => (status, msgs, cell)
  | status, some response =>
    let msgs' := msgs.replace (Messages.from_inner response.messages)
    match response.entity, hasStorage with
    | some e, true => (status, msgs', some e)
    | _, _ => (status, msgs', cell)

/-- `execute_collection_fetch` from `src/browser/collection.rs`. -/
def execute_collection_fetch {E : Type}
    (result : DecodedResponse (CollectionResponse E)) (msgs : Messages)
    (paging : Paging) (coll : List E) :
    StatusCode × Messages × Paging × List E :=
  match result.status, result.response with
  | .FetchTimeout, _ => (.FetchTimeout, msgs, paging, coll)
  | .FetchFailed, _ => (.FetchFailed, msgs, paging, coll)
  | .DecodeFailed, _ => (.DecodeFailed, msgs, paging, coll)
  | status, none => (status, msgs, paging, coll)
  | status, some response =>
    let msgs' := msgs.replace (Messages.from_inner response.messages)
    let coll' := match response.collection with
      | some entities => entities
      | none => coll
    (status, msgs', response.paging, coll')

namespace Entity

/-- The `fetch` helper from `src/browser/entity.rs` together with its
spawned completion, as one sequential state transformer emitting the event
trace: pre-flight failure invokes the callback with `BadRequest` and stops
with `FetchFailed` on the prior state; otherwise the pending state is
written, the network raced, the callback invoked, and the terminal state
written — in that order. -/
def fetch {E : Type} (caps : Caps (EntityResponse E)) (r : Request)
    (startError : Option String) (race : Nat → RaceOutcome)
    (hasStorage : Bool) (st : EntityState E) : EntityState E × List Ev :=
  match r.start startError with
  | .error _ =>
    let ts' := st.ts.stop .FetchFailed
    ({ st with ts := ts' }, [.callback .BadRequest st.ts, .tsWrite ts'])
  | .ok pf =>
    let tsPending := pendingOf r.is_load
    let fetched := pf.wait_completion race
    let decoded := (execute_fetch caps fetched).1
    let (status, msgs', cell') :=
      execute_entity_fetch decoded hasStorage st.msgs st.entity
    let tsFinal := tsPending.stop status
    ({ ts := tsFinal, msgs := msgs', entity := cell' },
     [.tsWrite tsPending, .netFetch, .callback status tsPending,
      .tsWrite tsFinal])

/-- The `store` helper from `src/browser/entity.rs`.  `reqEntityPresent` is
whether the `request_entity` cell holds a value; `ser` is the outcome of
serializing that value with the codec matching the declared media type
(`to_json`/`to_postcard`); `sig` is the `MS::sign` result for the
serialized bytes. -/
def store {E : Type} (caps : Caps (EntityResponse E)) (r : Request)
    (reqEntityPresent : Bool) (ser : Except String (List Nat))
    (sig : Option String) (startError : Option String)
    (race : Nat → RaceOutcome) (hasStorage : Bool) (st : EntityState E) :
    EntityState E × List Ev :=
  if mediaSupportedOpt r.media_type then
    if reqEntityPresent then
      match ser with
      | .error _ => (st, [])
      | .ok bytes =>
        let r1 := match sig with
          | some s => r.with_header "Content-Signature" s
          | none => r
        fetch caps (r1.with_body bytes) startError race hasStorage st
    else (st, [])
  else
    let msgs' := st.msgs.replace (Messages.from_service_error
      "Request failed as unsupported media type is requested")
    let ts' := st.ts.stop .UnsupportedMediaType
    ({ st with msgs := msgs', ts := ts' }, [.tsWrite ts'])

end Entity

namespace EntityStore

/-- `EntityStore::load`: skip both fetch and callback when the transfer
state already reports `loaded()`. -/
def load {E : Type} (caps : Caps (EntityResponse E)) (r : Request)
    (startError : Option String) (race : Nat → RaceOutcome)
    (st : EntityState E) : EntityState E × List Ev :=
  if st.ts.loaded then (st, [])
  else Entity.fetch caps (r.with_is_load true) startError race true st

/-- `EntityStore::load_skip_cache`: always fetch. -/
def load_skip_cache {E : Type} (caps : Caps (EntityResponse E)) (r : Request)
    (startError : Option String) (race : Nat → RaceOutcome)
    (st : EntityState E) : EntityState E × List Ev :=
  Entity.fetch caps (r.with_is_load true) startError race true st

/-- `EntityStore::store`: the store's own entity is the request payload;
the response is written back only when the request wants a response. -/
def store {E : Type} (caps : Caps (EntityResponse E)) (r : Request)
    (ser : Except String (List Nat)) (sig : Option String)
    (startError : Option String) (race : Nat → RaceOutcome)
    (st : EntityState E) : EntityState E × List Ev :=
  Entity.store caps (r.with_is_load false) st.entity.isSome ser sig
    startError race r.wants_response st

/-- `EntityStore::store_with_response`: like `store` with a caller-supplied
response cell. -/
def store_with_response {E : Type} (caps : Caps (EntityResponse E))
    (r : Request) (ser : Except String (List Nat)) (sig : Option String)
    (startError : Option String) (race : Nat → RaceOutcome)
    (st : EntityState E) : EntityState E × List Ev :=
  Entity.store caps (r.with_is_load false) st.entity.isSome ser sig
    startError race true st

end EntityStore

namespace Collection

/-- The `fetch` helper from `src/browser/collection.rs` together with its
spawned completion, analogous to `Entity.fetch`. -/
def fetch {E : Type} (caps : Caps (CollectionResponse E)) (r : Request)
    (startError : Option String) (race : Nat → RaceOutcome)
    (st : CollectionState E) : CollectionState E × List Ev :=
  match r.start startError with
  | .error _ =>
    let ts' := st.ts.stop .FetchFailed
    ({ st with ts := ts' }, [.callback .BadRequest st.ts, .tsWrite ts'])
  | .ok pf =>
    let tsPending := pendingOf r.is_load
    let fetched := pf.wait_completion race
    let decoded := (execute_fetch caps fetched).1
    let (status, msgs', paging', coll') :=
      execute_collection_fetch decoded st.msgs st.paging st.collection
    let tsFinal := tsPending.stop status
    ({ ts := tsFinal, msgs := msgs', paging := paging', collection := coll' },
     [.tsWrite tsPending, .netFetch, .callback status tsPending,
      .tsWrite tsFinal])

end Collection

namespace CollectionStore

/-- `CollectionStore::load`: same cache check as `EntityStore::load`. -/
def load {E : Type} (caps : Caps (CollectionResponse E)) (r : Request)
    (startError : Option String) (race : Nat → RaceOutcome)
    (st : CollectionState E) : CollectionState E × List Ev :=
  if st.ts.loaded then (st, [])
  else Collection.fetch caps (r.with_is_load true) startError race st

/-- `CollectionStore::load_skip_cache`. -/
def load_skip_cache {E : Type} (caps : Caps (CollectionResponse E))
    (r : Request) (startError : Option String) (race : Nat → RaceOutcome)
    (st : CollectionState E) : CollectionState E × List Ev :=
  Collection.fetch caps (r.with_is_load true) startError race st

/-- `CollectionStore::store`: a non-empty local collection is serialized
wholesale as the request body (after the media-type check and signing); an
empty one goes straight to `fetch` with no body. -/
def store {E : Type} (caps : Caps (CollectionResponse E)) (r : Request)
    (ser : Except String (List Nat)) (sig : Option String)
    (startError : Option String) (race : Nat → RaceOutcome)
    (st : CollectionState E) : CollectionState E × List Ev :=
  let r0 := r.with_is_load false
  if st.collection.isEmpty then
    Collection.fetch caps r0 startError race st
  else
    if mediaSupportedOpt r0.media_type then
      match ser with
      | .error _ => (st, [])
      | .ok bytes =>
        let r1 := match sig with
          | some s => r0.with_header "Content-Signature" s
          | none => r0
        Collection.fetch caps (r1.with_body bytes) startError race st
    else
      let msgs' := st.msgs.replace (Messages.from_service_error
        "Request failed as unsupported media type is requested")
      let ts' := st.ts.stop .UnsupportedMediaType
      ({ st with msgs := msgs', ts := ts' }, [.tsWrite ts'])

end CollectionStore

/-! ### Concrete fixtures for closed evaluations -/

/-- Capabilities whose verifier always reports valid and whose codecs
always fail, for concrete evaluations over `E = Nat`. -/
def trivialEntityCaps : Caps (EntityResponse Nat) :=
  { verify := fun _ _ => .ok true, b64decode := fun d => .ok d,
    deserJson := fun _ => .error "x", deserPostcard := fun _ => .error "x" }

/-- Collection analogue of `trivialEntityCaps`. -/
def trivialCollectionCaps : Caps (CollectionResponse Nat) :=
  { verify := fun _ _ => .ok true, b64decode := fun d => .ok d,
    deserJson := fun _ => .error "x", deserPostcard := fun _ => .error "x" }

/-- Capabilities whose verifier always reports invalid. -/
def rejectingEntityCaps : Caps (EntityResponse Nat) :=
  { verify := fun _ _ => .ok false, b64decode := fun d => .ok d,
    deserJson := fun _ => .error "x", deserPostcard := fun _ => .error "x" }

/-- A network race that always hits the timeout branch. -/
def alwaysTimeout : Nat → RaceOutcome :=
  fun _ => .timedOut

/-- A fresh entity store state over `E = Nat`. -/
def stEmptyE : EntityState Nat :=
  { ts := .Empty, msgs := Messages.new, entity := none }

/-- A fresh collection store state over `E = Nat`. -/
def stEmptyC : CollectionState Nat :=
  { ts := .Empty, msgs := Messages.new, paging := Paging.default,
    collection := [] }

/-- A 200 response declaring JSON content with an empty body: the decode
pipeline short-circuits to "no body" and the load completes with `Ok`. -/
def okJsonEmptyResponse : JsResponse :=
  { ok := true, isTypeError := false, status := 200,
    content_type := .ok (some "application/json"), signature := .ok none,
    body := .ok (.buffer []) }

/-- A network race that always resolves with `okJsonEmptyResponse`. -/
def raceOkEmpty : Nat → RaceOutcome :=
  fun _ => .resolved okJsonEmptyResponse

/-- Correspondence between the machine state and the tracking fold, the
induction invariant used to settle claim C1. -/
def tsAux : TransferState → Option Bool × Option (Bool × StatusCode) → Prop
  | .Empty, (p, c) => p = none ∧ c = none
  | .PendingLoad, (p, _) => p = some true
  | .PendingStore, (p, _) => p = some false
  | .Loaded st, (p, c) => p = none ∧ c = some (true, st)
  | .Stored st, (p, c) => p = none ∧ c = some (false, st)

/-! ## Theorems -/

theorem tsAux_preserved (ops : List TSOp) :
    ∀ s a, tsAux s a → validFrom s ops = true →
      tsAux (runFrom s ops) (ops.foldl lastCompletedStep a) := by
  induction ops with
  | nil => intro s a h _; exact h
  | cons op rest ih =>
    intro s a h hvalid
    simp only [validFrom, Bool.and_eq_true] at hvalid
    obtain ⟨hop, hrest⟩ := hvalid
    refine ih (op.apply s) (lastCompletedStep a op) ?_ hrest
    obtain ⟨p, c⟩ := a
    cases op with
    | start_load =>
      cases s <;> simp_all [TSOp.apply, TSOp.allowed, TransferState.start_load,
        lastCompletedStep, tsAux]
    | start_store =>
      cases s <;> simp_all [TSOp.apply, TSOp.allowed, TransferState.start_store,
        lastCompletedStep, tsAux]
    | stop status =>
      cases s <;> simp_all [TSOp.apply, TSOp.allowed, TransferState.stop,
        TransferState.pending, lastCompletedStep, tsAux]

/-- C1 (amended): for every protocol-obeying sequence of `start_load` /
`start_store` / `stop(status)` calls whose final state is not pending,
`TransferState::loaded()` is true iff the last completed verb was a load and
the status passed to its `stop()` is a success code (the original claim,
quantified over all protocol-obeying sequences, fails for sequences ending in
a fresh start: the state is then pending and `loaded()` is false even though
the last completed verb was a successful load); moreover `stop(status)` maps
`PendingLoad` and `Loaded(_)` to `Loaded(status)`, `PendingStore` and
`Stored(_)` to `Stored(status)`, and `Empty` to `Loaded(FetchFailed)`. -/
theorem c1_transferstate_protocol (ops : List TSOp)
    (hvalid : validFrom .Empty ops = true)
    (hnp : (runOps ops).pending = false) :
    ((runOps ops).loaded = lastCompletedLoadSuccess ops)
    ∧ (∀ st, TransferState.stop .PendingLoad st = .Loaded st)
    ∧ (∀ st x, TransferState.stop (.Loaded x) st = .Loaded st)
    ∧ (∀ st, TransferState.stop .PendingStore st = .Stored st)
    ∧ (∀ st x, TransferState.stop (.Stored x) st = .Stored st)
    ∧ (∀ st, TransferState.stop .Empty st = .Loaded .FetchFailed) := by
  refine ⟨?_, fun _ => rfl, fun _ _ => rfl, fun _ => rfl, fun _ _ => rfl,
    fun _ => rfl⟩
  have h := tsAux_preserved ops .Empty (none, none) ⟨rfl, rfl⟩ hvalid
  unfold runOps at hnp ⊢
  unfold lastCompletedLoadSuccess lastCompleted
  cases hr : runFrom .Empty ops <;>
    rw [hr] at h hnp <;>
    simp_all [tsAux, TransferState.loaded, TransferState.pending]

/-- C1 counterexample: the protocol-obeying sequence
`[start_load, stop Ok, start_store]` has a successful load as its last
completed verb, yet `loaded()` is false on the resulting (pending) state, so
the claim's iff fails as stated over all protocol-obeying sequences. -/
theorem c1_transferstate_protocol_counterexample :
    validFrom .Empty [TSOp.start_load, TSOp.stop .Ok, TSOp.start_store] = true
    ∧ lastCompletedLoadSuccess
        [TSOp.start_load, TSOp.stop .Ok, TSOp.start_store] = true
    ∧ (runOps [TSOp.start_load, TSOp.stop .Ok, TSOp.start_store]).loaded
        = false := by
  decide

/-- C1 witness: the amended theorem applied to the concrete protocol-obeying
sequence `[start_load, stop Ok]`. -/
theorem c1_transferstate_protocol_witness :
    (runOps [TSOp.start_load, TSOp.stop .Ok]).loaded
      = lastCompletedLoadSuccess [TSOp.start_load, TSOp.stop .Ok] :=
  (c1_transferstate_protocol [TSOp.start_load, TSOp.stop .Ok]
    (by decide) (by decide)).1

theorem existsError_mapPush (k : String) (msg : Message)
    (l : List (String × List Message)) :
    existsError (mapPush k msg l) = (existsError l || msg.error) := by
  induction l with
  | nil => simp [mapPush, existsError]
  | cons kv rest ih =>
    obtain ⟨k', v'⟩ := kv
    simp only [existsError, List.any_cons] at ih ⊢
    by_cases h : k' = k
    · simp only [mapPush, if_pos h, List.any_cons, List.any_append]
      cases v'.any Message.error <;> cases msg.error <;> simp
    · simp only [mapPush, if_neg h, List.any_cons]
      rw [ih]
      cases v'.any Message.error <;> cases msg.error <;> simp

theorem msgOp_preserves_flag (m : Messages) (op : MsgOp)
    (hm : m.error = existsError m.messages) (hop : op.isSet = false) :
    (op.apply m).error = existsError (op.apply m).messages := by
  cases op with
  | add key mt text pars =>
    simp [MsgOp.apply, Messages.add_with_pars, existsError_mapPush, hm,
      Message.error]
  | set key mt text pars => simp [MsgOp.isSet] at hop
  | clear key => simp [MsgOp.apply, Messages.clear, Messages.evaluate_error]
  | replace w => simp [MsgOp.apply, Messages.replace, Messages.evaluate_error]
  | clear_all =>
    simp [MsgOp.apply, Messages.clear_all, existsError]

/-- C2 (amended): after every finite interleaving of the mutating operations
`add`, `clear`, `replace`, and `clear_all` on a fresh `Messages`, the cached
aggregate `error()` flag is true iff at least one message in at least one
category has kind `Error`.  The original claim also included `set`, but
`set_with_pars` assigns the flag from the newly set message's kind alone, so
a `set` of a non-`Error` message leaves the flag false while `Error`
messages remain in other categories. -/
theorem c2_messages_error_flag (ops : List MsgOp)
    (hnoset : (ops.all fun op => !op.isSet) = true) :
    (applyMsgOps ops).error = existsError (applyMsgOps ops).messages := by
  suffices h : ∀ (m : Messages), m.error = existsError m.messages →
      (ops.foldl MsgOp.apply m).error
        = existsError (ops.foldl MsgOp.apply m).messages by
    exact h Messages.new (by simp [Messages.new, existsError])
  induction ops with
  | nil => intro m hm; exact hm
  | cons op rest ih =>
    intro m hm
    simp only [List.all_cons, Bool.and_eq_true, Bool.not_eq_true'] at hnoset
    exact ih hnoset.2 (op.apply m) (msgOp_preserves_flag m op hm hnoset.1)

/-- C2 counterexample: adding an `Error` message under category `"a"` and
then `set`-ting an `Information` message under category `"b"` leaves
`error()` false although an `Error` message is still present. -/
theorem c2_messages_error_flag_counterexample :
    (applyMsgOps
        [MsgOp.add "a" .Error "t" [], MsgOp.set "b" .Information "u" []]).error
      = false
    ∧ existsError
        (applyMsgOps
          [MsgOp.add "a" .Error "t" [],
            MsgOp.set "b" .Information "u" []]).messages
      = true := by
  decide

/-- C2 witness: the amended theorem applied to the concrete `set`-free
sequence `[add "a" Error, clear "a", replace, clear_all]`. -/
theorem c2_messages_error_flag_witness :
    (applyMsgOps
        [MsgOp.add "a" .Error "t" [], MsgOp.clear "a",
          MsgOp.replace (Messages.from_service_error "x"),
          MsgOp.clear_all]).error
      = existsError
          (applyMsgOps
            [MsgOp.add "a" .Error "t" [], MsgOp.clear "a",
              MsgOp.replace (Messages.from_service_error "x"),
              MsgOp.clear_all]).messages :=
  c2_messages_error_flag
    [MsgOp.add "a" .Error "t" [], MsgOp.clear "a",
      MsgOp.replace (Messages.from_service_error "x"), MsgOp.clear_all]
    (by decide)

/-- C3: for every fetch that reaches the network (request construction
succeeds), in both the `EntityStore` and the `CollectionStore` flow and for
every race outcome, the result callback is invoked exactly once, its
invocation precedes the terminal `TransferState` write (the trace is
pending-write, network call, callback, terminal write), and the
`TransferState` the callback would observe on a synchronous read is the
pending state, which differs from the terminal state. -/
theorem c3_callback_before_terminal_write {E : Type}
    (capsE : Caps (EntityResponse E)) (capsC : Caps (CollectionResponse E))
    (r : Request) (race : Nat → RaceOutcome) (hasStorage : Bool)
    (stE : EntityState E) (stC : CollectionState E) :
    (∃ s : StatusCode,
      (Entity.fetch capsE r none race hasStorage stE).2
        = [.tsWrite (pendingOf r.is_load), .netFetch,
           .callback s (pendingOf r.is_load),
           .tsWrite ((pendingOf r.is_load).stop s)]
      ∧ callbackCount (Entity.fetch capsE r none race hasStorage stE).2 = 1
      ∧ (pendingOf r.is_load).pending = true
      ∧ ((pendingOf r.is_load).stop s).pending = false
      ∧ pendingOf r.is_load ≠ (pendingOf r.is_load).stop s)
    ∧ (∃ s : StatusCode,
      (Collection.fetch capsC r none race stC).2
        = [.tsWrite (pendingOf r.is_load), .netFetch,
           .callback s (pendingOf r.is_load),
           .tsWrite ((pendingOf r.is_load).stop s)]
      ∧ callbackCount (Collection.fetch capsC r none race stC).2 = 1
      ∧ (pendingOf r.is_load).pending = true
      ∧ ((pendingOf r.is_load).stop s).pending = false
      ∧ pendingOf r.is_load ≠ (pendingOf r.is_load).stop s) := by
  constructor
  · refine ⟨_, rfl, rfl, ?_, ?_, ?_⟩ <;>
      unfold pendingOf <;> cases r.is_load <;>
      simp [TransferState.pending, TransferState.stop]
  · refine ⟨_, rfl, rfl, ?_, ?_, ?_⟩ <;>
      unfold pendingOf <;> cases r.is_load <;>
      simp [TransferState.pending, TransferState.stop]

/-- C4 (amended): for every `load` or `store` whose request construction
fails before the network is reached, in both store flows, the result
callback is invoked exactly once with `BadRequest`, no network call is
issued, and the `TransferState` becomes `stop(FetchFailed)` applied to the
prior state — `Loaded(FetchFailed)` from `Empty`, `PendingLoad` or
`Loaded(_)`, but `Stored(FetchFailed)` from `PendingStore` or `Stored(_)` —
independent of the request's load/store intent.  The original claim's
"`Loaded(FetchFailed)` regardless" fails from a `Stored`/`PendingStore`
prior state. -/
theorem c4_preflight_failure {E : Type}
    (capsE : Caps (EntityResponse E)) (capsC : Caps (CollectionResponse E))
    (r : Request) (e : String) (race : Nat → RaceOutcome) (hasStorage : Bool)
    (stE : EntityState E) (stC : CollectionState E) :
    Entity.fetch capsE r (some e) race hasStorage stE
      = ({ stE with ts := stE.ts.stop .FetchFailed },
         [.callback .BadRequest stE.ts, .tsWrite (stE.ts.stop .FetchFailed)])
    ∧ Collection.fetch capsC r (some e) race stC
      = ({ stC with ts := stC.ts.stop .FetchFailed },
         [.callback .BadRequest stC.ts, .tsWrite (stC.ts.stop .FetchFailed)])
    ∧ callbackCount (Entity.fetch capsE r (some e) race hasStorage stE).2 = 1
    ∧ netFetchCount (Entity.fetch capsE r (some e) race hasStorage stE).2 = 0
    ∧ callbackCount (Collection.fetch capsC r (some e) race stC).2 = 1
    ∧ netFetchCount (Collection.fetch capsC r (some e) race stC).2 = 0 :=
  ⟨rfl, rfl, rfl, rfl, rfl, rfl⟩

/-- C4 counterexample: with prior state `Stored(Ok)` a pre-flight failure
leaves the state `Stored(FetchFailed)`, not `Loaded(FetchFailed)` as
claimed. -/
theorem c4_preflight_failure_counterexample :
    (Entity.fetch trivialEntityCaps (Request.new "u") (some "boom")
        alwaysTimeout true
        { ts := .Stored .Ok, msgs := Messages.new, entity := none }).1.ts
      = .Stored .FetchFailed
    ∧ (TransferState.Stored .FetchFailed) ≠ .Loaded .FetchFailed := by
  exact ⟨rfl, by decide⟩

/-- C5 (amended): a `CollectionStore::store` with a non-empty local
collection (and every `EntityStore::store`) whose request declares an
unsupported or missing media type aborts before any network call and
without invoking the callback, replaces `Messages` with a service-error
message (so the aggregate error flag is set), and writes
`stop(UnsupportedMediaType)` over the prior `TransferState` — which is
`Stored(UnsupportedMediaType)` only from a `PendingStore`/`Stored(_)`
prior, `Loaded(UnsupportedMediaType)` from `PendingLoad`/`Loaded(_)`, and
`Loaded(FetchFailed)` from `Empty`; the original claim's unconditional
`Stored(UnsupportedMediaType)` fails from an `Empty` or loaded prior
state. -/
theorem c5_unsupported_media_store {E : Type}
    (capsE : Caps (EntityResponse E)) (capsC : Caps (CollectionResponse E))
    (r : Request) (ser : Except String (List Nat)) (sig : Option String)
    (se : Option String) (race : Nat → RaceOutcome)
    (stE : EntityState E) (stC : CollectionState E)
    (hmedia : mediaSupportedOpt r.media_type = false)
    (hcoll : stC.collection.isEmpty = false) :
    CollectionStore.store capsC r ser sig se race stC
      = ({ stC with
            msgs := stC.msgs.replace (Messages.from_service_error
              "Request failed as unsupported media type is requested"),
            ts := stC.ts.stop .UnsupportedMediaType },
         [.tsWrite (stC.ts.stop .UnsupportedMediaType)])
    ∧ EntityStore.store capsE r ser sig se race stE
      = ({ stE with
            msgs := stE.msgs.replace (Messages.from_service_error
              "Request failed as unsupported media type is requested"),
            ts := stE.ts.stop .UnsupportedMediaType },
         [.tsWrite (stE.ts.stop .UnsupportedMediaType)])
    ∧ (stC.msgs.replace (Messages.from_service_error
        "Request failed as unsupported media type is requested")).error
      = true
    ∧ netFetchCount (CollectionStore.store capsC r ser sig se race stC).2 = 0
    ∧ callbackCount (CollectionStore.store capsC r ser sig se race stC).2
      = 0 := by
  have hA : CollectionStore.store capsC r ser sig se race stC
      = ({ stC with
            msgs := stC.msgs.replace (Messages.from_service_error
              "Request failed as unsupported media type is requested"),
            ts := stC.ts.stop .UnsupportedMediaType },
         [.tsWrite (stC.ts.stop .UnsupportedMediaType)]) := by
    have h0 : mediaSupportedOpt (r.with_is_load false).media_type = false :=
      hmedia
    simp [CollectionStore.store, hcoll, h0]
  have hB : EntityStore.store capsE r ser sig se race stE
      = ({ stE with
            msgs := stE.msgs.replace (Messages.from_service_error
              "Request failed as unsupported media type is requested"),
            ts := stE.ts.stop .UnsupportedMediaType },
         [.tsWrite (stE.ts.stop .UnsupportedMediaType)]) := by
    have h0 : mediaSupportedOpt (r.with_is_load false).media_type = false :=
      hmedia
    simp [EntityStore.store, Entity.store, h0]
  refine ⟨hA, hB, rfl, ?_, ?_⟩ <;> rw [hA] <;> rfl

/-- C5 counterexample: a store on a fresh store (prior state `Empty`) with
a non-empty collection and no declared media type ends in
`Loaded(FetchFailed)`, not `Stored(UnsupportedMediaType)` as claimed. -/
theorem c5_unsupported_media_store_counterexample :
    (CollectionStore.store trivialCollectionCaps (Request.new "u")
        (.ok []) none none alwaysTimeout
        { ts := .Empty, msgs := Messages.new, paging := Paging.default,
          collection := [0] }).1.ts
      = .Loaded .FetchFailed
    ∧ (TransferState.Loaded .FetchFailed) ≠ .Stored .UnsupportedMediaType := by
  exact ⟨rfl, by decide⟩

/-- C5 witness: the amended theorem applied to a request without a media
type and a one-element collection, from the prior state `Stored(Ok)`. -/
theorem c5_unsupported_media_store_witness :
    CollectionStore.store trivialCollectionCaps (Request.new "u")
        (.ok []) none none alwaysTimeout
        { ts := .Stored .Ok, msgs := Messages.new, paging := Paging.default,
          collection := [0] }
      = ({ ts := TransferState.Stored .UnsupportedMediaType,
           msgs := Messages.new.replace (Messages.from_service_error
             "Request failed as unsupported media type is requested"),
           paging := Paging.default, collection := [0] },
         [.tsWrite (TransferState.Stored .UnsupportedMediaType)]) := by
  have h := (c5_unsupported_media_store trivialEntityCaps
    trivialCollectionCaps (Request.new "u") (.ok []) none none alwaysTimeout
    stEmptyE
    { ts := .Stored .Ok, msgs := Messages.new, paging := Paging.default,
      collection := [0] } rfl rfl).1
  exact h

theorem stop_fetchFailed_not_loaded (s : TransferState) :
    (s.stop .FetchFailed).loaded = false := by
  cases s <;> rfl

theorem entity_load_skip {E : Type} (caps : Caps (EntityResponse E))
    (r : Request) (se : Option String) (race : Nat → RaceOutcome)
    (st : EntityState E) (h : st.ts.loaded = true) :
    EntityStore.load caps r se race st = (st, []) := by
  simp [EntityStore.load, h]

theorem collection_load_skip {E : Type} (caps : Caps (CollectionResponse E))
    (r : Request) (se : Option String) (race : Nat → RaceOutcome)
    (st : CollectionState E) (h : st.ts.loaded = true) :
    CollectionStore.load caps r se race st = (st, []) := by
  simp [CollectionStore.load, h]

/-- C6 (amended): when a store's `TransferState` reports `loaded()`,
`load()` issues no network fetch and never invokes the callback (for both
store kinds); consequently two successive `load()` calls issue exactly one
network call provided the first completes with `loaded()==true` (a success
status) — a first load that fails leaves `loaded()` false and the second
load fetches again, so the unqualified "exactly one network call" of the
original claim is false; `load_skip_cache` bypasses the check
unconditionally. -/
theorem c6_load_cache {E : Type}
    (capsE capsE2 : Caps (EntityResponse E))
    (capsC capsC2 : Caps (CollectionResponse E))
    (r r2 : Request) (se se2 : Option String)
    (race race2 : Nat → RaceOutcome)
    (stE stE0 : EntityState E) (stC stC0 : CollectionState E)
    (hE : stE.ts.loaded = true) (hC : stC.ts.loaded = true)
    (hE0 : stE0.ts.loaded = false)
    (hE0succ : (EntityStore.load capsE r se race stE0).1.ts.loaded = true)
    (hC0 : stC0.ts.loaded = false)
    (hC0succ : (CollectionStore.load capsC r se race stC0).1.ts.loaded
      = true) :
    EntityStore.load capsE r se race stE = (stE, [])
    ∧ CollectionStore.load capsC r se race stC = (stC, [])
    ∧ netFetchCount ((EntityStore.load capsE r se race stE0).2
        ++ (EntityStore.load capsE2 r2 se2 race2
              (EntityStore.load capsE r se race stE0).1).2) = 1
    ∧ netFetchCount ((CollectionStore.load capsC r se race stC0).2
        ++ (CollectionStore.load capsC2 r2 se2 race2
              (CollectionStore.load capsC r se race stC0).1).2) = 1
    ∧ netFetchCount (EntityStore.load_skip_cache capsE r none race stE).2 = 1
    ∧ netFetchCount (CollectionStore.load_skip_cache capsC r none race stC).2
      = 1 := by
  refine ⟨entity_load_skip capsE r se race stE hE,
    collection_load_skip capsC r se race stC hC, ?_, ?_, ?_, ?_⟩
  · rw [entity_load_skip capsE2 r2 se2 race2 _ hE0succ]
    simp only [List.append_nil]
    cases se with
    | some e =>
      exfalso
      have hts : (EntityStore.load capsE r (some e) race stE0).1.ts
          = stE0.ts.stop .FetchFailed := by
        simp [EntityStore.load, hE0, Entity.fetch, Request.start]
      rw [hts, stop_fetchFailed_not_loaded] at hE0succ
      exact Bool.false_ne_true hE0succ
    | none =>
      simp [EntityStore.load, hE0, Entity.fetch, Request.start,
        netFetchCount, Ev.isNetFetch]
  · rw [collection_load_skip capsC2 r2 se2 race2 _ hC0succ]
    simp only [List.append_nil]
    cases se with
    | some e =>
      exfalso
      have hts : (CollectionStore.load capsC r (some e) race stC0).1.ts
          = stC0.ts.stop .FetchFailed := by
        simp [CollectionStore.load, hC0, Collection.fetch, Request.start]
      rw [hts, stop_fetchFailed_not_loaded] at hC0succ
      exact Bool.false_ne_true hC0succ
    | none =>
      simp [CollectionStore.load, hC0, Collection.fetch, Request.start,
        netFetchCount, Ev.isNetFetch]
  · simp [EntityStore.load_skip_cache, Entity.fetch, Request.start,
      netFetchCount, Ev.isNetFetch]
  · simp [CollectionStore.load_skip_cache, Collection.fetch, Request.start,
      netFetchCount, Ev.isNetFetch]

/-- C6 counterexample: two successive `load()` calls on a fresh store whose
first fetch times out issue two network calls, refuting the unqualified
"exactly one network call". -/
theorem c6_load_cache_counterexample :
    netFetchCount
        ((EntityStore.load trivialEntityCaps (Request.new "u") none
            alwaysTimeout stEmptyE).2
          ++ (EntityStore.load trivialEntityCaps (Request.new "u") none
                alwaysTimeout
                (EntityStore.load trivialEntityCaps (Request.new "u") none
                  alwaysTimeout stEmptyE).1).2)
      = 2
    ∧ (2 : Nat) ≠ 1 := by
  exact ⟨rfl, by decide⟩

/-- C6 witness: the amended theorem applied to fresh stores whose first
load resolves 200 with an empty JSON body (a success), plus already-loaded
stores for the cache-skip part. -/
theorem c6_load_cache_witness :
    EntityStore.load trivialEntityCaps (Request.new "u") none raceOkEmpty
        { ts := .Loaded .Ok, msgs := Messages.new, entity := none }
      = ({ ts := .Loaded .Ok, msgs := Messages.new, entity := none }, [])
    ∧ netFetchCount
        ((EntityStore.load trivialEntityCaps (Request.new "u") none
            raceOkEmpty stEmptyE).2
          ++ (EntityStore.load trivialEntityCaps (Request.new "u") none
                raceOkEmpty
                (EntityStore.load trivialEntityCaps (Request.new "u") none
                  raceOkEmpty stEmptyE).1).2)
      = 1 := by
  have h := c6_load_cache trivialEntityCaps trivialEntityCaps
    trivialCollectionCaps trivialCollectionCaps (Request.new "u")
    (Request.new "u") none none raceOkEmpty raceOkEmpty
    { ts := .Loaded .Ok, msgs := Messages.new, entity := none } stEmptyE
    { ts := .Loaded .Ok, msgs := Messages.new, paging := Paging.default,
      collection := [] } stEmptyC
    rfl rfl rfl (by decide) rfl (by decide)
  exact ⟨h.1, h.2.2.1⟩

/-- C7: for every response with a structured media type and a non-empty
body, `decode_content` invokes the MAC verification capability first (the
trace starts with the verification, and any deserialization comes after);
whenever the verifier reports invalid (`Ok(false)`) or returns an error,
the outcome is `DecodeFailed` with a descriptive hint and no
deserialization is attempted; an outcome with status `DecodeFailed` leaves
both the messages and the entity cell of the store unchanged (and the same
holds through `decode_response`, which carries no decoded value then). -/
theorem c7_mac_verification {R E : Type} (caps : Caps R)
    (media : MediaType) (content : JsContent) (sig : Option String)
    (data : List Nat)
    (hm : media.structured = true)
    (hd : contentBytes content = some data) :
    ((decode_content caps media false content sig).2.head?
        = some (.verifyInvoked data))
    ∧ ((decode_content caps media false content sig).2
          = [.verifyInvoked data]
        ∨ (decode_content caps media false content sig).2
          = [.verifyInvoked data, .deserInvoked data])
    ∧ (caps.verify data sig = .ok false →
        decode_content caps media false content sig
          = (.error (.DecodeFailed, "Response signature is invalid."),
             [.verifyInvoked data]))
    ∧ (∀ e, caps.verify data sig = .error e →
        decode_content caps media false content sig
          = (.error (.DecodeFailed,
               "Response signature verification failed: {}." ++ e),
             [.verifyInvoked data]))
    ∧ (∀ (result : DecodedResponse (EntityResponse E)) (hs : Bool)
         (msgs : Messages) (cell : Option E),
        result.status = .DecodeFailed →
        execute_entity_fetch result hs msgs cell
          = (.DecodeFailed, msgs, cell))
    ∧ (∀ (st : StatusCode) (resp : JsResponse) (ct : Option String),
        resp.content_type = .ok ct → resp.signature = .ok sig →
        resp.body = .ok content →
        contentTypeToMediaType ct = media →
        (caps.verify data sig = .ok false
          ∨ ∃ e, caps.verify data sig = .error e) →
        (decode_response caps st resp).1.status = .DecodeFailed
        ∧ (decode_response caps st resp).1.response = none) := by
  have hmJP : media = MediaType.Json ∨ media = MediaType.Postcard := by
    cases media <;> simp_all [MediaType.structured]
  have hfalse : caps.verify data sig = .ok false →
      decode_content caps media false content sig
        = (.error (.DecodeFailed, "Response signature is invalid."),
           [.verifyInvoked data]) := by
    intro hv
    rcases hmJP with h | h <;> subst h <;> simp [decode_content, hd, hv]
  have herr : ∀ e, caps.verify data sig = .error e →
      decode_content caps media false content sig
        = (.error (.DecodeFailed,
             "Response signature verification failed: {}." ++ e),
           [.verifyInvoked data]) := by
    intro e hv
    rcases hmJP with h | h <;> subst h <;> simp [decode_content, hd, hv]
  have hshape : (decode_content caps media false content sig).2
        = [.verifyInvoked data]
      ∨ (decode_content caps media false content sig).2
        = [.verifyInvoked data, .deserInvoked data] := by
    cases hv : caps.verify data sig with
    | error e => rw [herr e hv]; exact Or.inl rfl
    | ok b =>
      cases b with
      | false => rw [hfalse hv]; exact Or.inl rfl
      | true =>
        refine Or.inr ?_
        rcases hmJP with h | h <;> subst h
        · cases hdes : caps.deserJson data <;>
            simp [decode_content, hd, hv, hdes]
        · cases hdes : caps.deserPostcard data <;>
            simp [decode_content, hd, hv, hdes]
  have hunch : ∀ (result : DecodedResponse (EntityResponse E)) (hs : Bool)
      (msgs : Messages) (cell : Option E),
      result.status = .DecodeFailed →
      execute_entity_fetch result hs msgs cell
        = (.DecodeFailed, msgs, cell) := by
    intro result hs msgs cell hst
    obtain ⟨s, hint, resp⟩ := result
    simp only at hst
    subst hst
    cases resp <;> rfl
  refine ⟨?_, hshape, hfalse, herr, hunch, ?_⟩
  · rcases hshape with h | h <;> rw [h] <;> rfl
  · intro st resp ct h1 h2 h3 h4 h5
    have hdc : (decode_content caps media false content sig).1
          = .error (.DecodeFailed,
              "Response signature is invalid.")
        ∨ ∃ e, (decode_content caps media false content sig).1
          = .error (.DecodeFailed,
              "Response signature verification failed: {}." ++ e) := by
      rcases h5 with hv | ⟨e, hv⟩
      · exact Or.inl (by rw [hfalse hv])
      · exact Or.inr ⟨e, by rw [herr e hv]⟩
    obtain ⟨rok, rte, rst, rct, rsig, rbody⟩ := resp
    simp only at h1 h2 h3
    subst h1; subst h2; subst h3
    simp only [decode_response, h4]
    rcases hdc with h | ⟨e, h⟩ <;>
      rcases hq : decode_content caps media false content sig with ⟨res, tr⟩ <;>
      rw [hq] at h <;> simp at h <;> rw [h] <;> simp

/-- C7 witness: the theorem applied to a JSON response with body `[1]` and
the always-rejecting verifier: the outcome is `DecodeFailed` with the
invalid-signature hint, and only the verifier was invoked. -/
theorem c7_mac_verification_witness :
    decode_content rejectingEntityCaps .Json false (.buffer [1]) none
      = (.error (.DecodeFailed, "Response signature is invalid."),
         [.verifyInvoked [1]]) :=
  (c7_mac_verification (E := Nat) rejectingEntityCaps .Json (.buffer [1])
    none [1] rfl rfl).2.2.1 rfl

/-- C8 (amended): in the decode pipeline a missing `Content-Type` header
maps to `MediaType::Plain`, but an unrecognized header value maps to
`MediaType::ByteStream` — the `#[default]` variant of `MediaType`, which
`From<&str>` falls back to — not to `Plain` as claimed. -/
theorem c8_content_type_mapping :
    (∀ s, s ∉ recognizedContentTypes →
      contentTypeToMediaType (some s) = .ByteStream)
    ∧ contentTypeToMediaType none = .Plain
    ∧ MediaType.default = .ByteStream := by
  refine ⟨?_, rfl, rfl⟩
  intro s hs
  simp only [recognizedContentTypes, List.mem_cons, List.not_mem_nil,
    or_false, not_or] at hs
  obtain ⟨h1, h2, h3, h4, h5, h6, h7, h8, h9, h10, h11, h12, h13, h14, h15,
    h16, h17, h18, h19, h20, h21, h22, h23, h24⟩ := hs
  simp [contentTypeToMediaType, MediaType.from_str, MediaType.default,
    h1, h2, h3, h4, h5, h6, h7, h8, h9, h10, h11, h12, h13, h14, h15, h16,
    h17, h18, h19, h20, h21, h22, h23, h24]

/-- C8 counterexample: the unrecognized value `"application/x-unknown"`
maps to `ByteStream`, not `Plain` as claimed. -/
theorem c8_content_type_mapping_counterexample :
    contentTypeToMediaType (some "application/x-unknown") = .ByteStream
    ∧ MediaType.ByteStream ≠ .Plain := by
  decide

/-- C8 witness: the amended theorem applied to the concrete unrecognized
value `"application/x-unknown"`. -/
theorem c8_content_type_mapping_witness :
    contentTypeToMediaType (some "application/x-unknown") = .ByteStream :=
  c8_content_type_mapping.1 "application/x-unknown" (by decide)

/-- C9 (amended): for every `EntityStore::store` / `store_with_response`
whose request declares a supported media type, if the payload entity cell
is `None` or the entity fails to serialize, the call silently no-ops: no
network call, no callback, `TransferState` and `Messages` unchanged.  With
an unsupported or missing media type the unsupported-media-type abort (C5)
takes precedence even when the entity cell is `None`, so the original
claim's unconditional no-op is false. -/
theorem c9_store_noop {E : Type} (caps : Caps (EntityResponse E))
    (r : Request) (ser : Except String (List Nat)) (sig : Option String)
    (se : Option String) (race : Nat → RaceOutcome) (st : EntityState E)
    (hmedia : mediaSupportedOpt r.media_type = true)
    (hfail : st.entity = none ∨ ∃ e, ser = Except.error e) :
    EntityStore.store caps r ser sig se race st = (st, [])
    ∧ EntityStore.store_with_response caps r ser sig se race st
      = (st, []) := by
  have h0 : mediaSupportedOpt (r.with_is_load false).media_type = true :=
    hmedia
  rcases hfail with hnone | ⟨e, herr⟩
  · have hsome : st.entity.isSome = false := by rw [hnone]; rfl
    constructor <;>
      simp [EntityStore.store, EntityStore.store_with_response,
        Entity.store, h0, hsome]
  · constructor <;> cases hse : st.entity.isSome <;>
      simp [EntityStore.store, EntityStore.store_with_response,
        Entity.store, h0, herr, hse]

/-- C9 counterexample: a `store` with payload entity cell `None` but no
declared media type does not no-op: it records a service-error message and
stops the transfer state. -/
theorem c9_store_noop_counterexample :
    EntityStore.store trivialEntityCaps (Request.new "u") (.ok []) none
        none alwaysTimeout stEmptyE
      ≠ (stEmptyE, []) := by
  decide

/-- C9 witness: the amended theorem applied to a JSON-typed request with an
empty entity cell. -/
theorem c9_store_noop_witness :
    EntityStore.store trivialEntityCaps
        ((Request.new "u").with_media_type .Json) (.ok []) none none
        alwaysTimeout stEmptyE
      = (stEmptyE, []) :=
  (c9_store_noop trivialEntityCaps ((Request.new "u").with_media_type .Json)
    (.ok []) none none alwaysTimeout stEmptyE rfl (Or.inl rfl)).1

/-- C10: `Request::new` defaults the timeout to 5 seconds; a successfully
started request hands its declared timeout to the `PendingFetch`; and
`wait_completion` bounds the network race with a 900-second fallback when
the declared timeout is `None` — the race delay it consults is always the
finite `race_timeout_secs`, so it never waits indefinitely. -/
theorem c10_timeout_defaults :
    (∀ url, (Request.new url).timeout = some 5)
    ∧ (∀ (r : Request) (pf : PendingFetch), r.start none = .ok pf →
        pf.timeout = r.timeout)
    ∧ (∀ pf : PendingFetch, pf.timeout = none → pf.race_timeout_secs = 900)
    ∧ (∀ (pf : PendingFetch) (race : Nat → RaceOutcome),
        pf.wait_completion race
          = pf.wait_completion (fun _ => race pf.race_timeout_secs)) := by
  refine ⟨fun _ => rfl, ?_, ?_, fun _ _ => rfl⟩
  · intro r pf h
    simp only [Request.start, Except.ok.injEq] at h
    rw [← h]
  · intro pf h
    simp [PendingFetch.race_timeout_secs, h]

/-- C10 witness: the theorem applied to a concrete `PendingFetch` without a
timeout and to a concrete `Request::new`. -/
theorem c10_timeout_defaults_witness :
    PendingFetch.race_timeout_secs { url := "u", timeout := none } = 900
    ∧ (Request.new "u").timeout = some 5 :=
  ⟨c10_timeout_defaults.2.2.1 { url := "u", timeout := none } rfl,
   c10_timeout_defaults.1 "u"⟩

end Fetsig
